import Mathlib

/-!
Shallow embedding of the kyverno policy-engine core: the mutation
orchestrator (`Mutate` of package engine), the generate-request
reconciler (package generate) and the reconciliation-queue error
handler (package controller), together with theorems settling the
specification claims about them.

External collaborators that the source calls but whose code is in other
packages (mutate.ProcessOverlay, mutate.ProcessPatches,
MatchesResourceDescription, variables.EvaluateConditions,
variables.SubstituteVars, the resource-store client and the status
control) are modelled as explicit environment parameters: the control
flow proved about is exactly the control flow of the source files.
-/

namespace Kyverno

/-- Untyped nested data (Go `interface\x7b\x7d` / `map[string]interface\x7b\x7d`):
a minimal tagged tree, enough to carry overlay patterns and templates. -/
inductive Value where
  | str : String → Value
  | vmap : List (String × Value) → Value

/-- A resource's structured form, reduced to the fields the embedded code
reads: identity (GetKind/GetName/GetNamespace/GetAPIVersion), labels and
the creation timestamp (GetCreationTimestamp, as an abstract instant). -/
structure Resource where
  kind : String
  apiVersion : String
  name : String
  ns : String
  labels : List (String × String)
  creationTimestamp : Nat
deriving DecidableEq, Repr

/-- Evaluation context (engine context.EvalInterface): built once per pass
from the triggering resource and the caller's user info; the mutation
loop never rebuilds it. -/
structure Context where
  resource : Resource
  username : String
deriving DecidableEq, Repr

/-- kyverno.RequestInfo (caller identity); the zero value gates the
autogen branch. -/
structure RequestInfo where
  roles : List String
  clusterRoles : List String
  username : String
deriving DecidableEq, Repr

/-- RequestInfo\x7b\x7d, the zero value compared with reflect.DeepEqual. -/
def emptyRequestInfo : RequestInfo := ⟨[], [], ""⟩

/-- response.RuleResponse: patches is `none` exactly when the Go slice is
nil. -/
structure RuleResponse where
  name : String
  message : String
  success : Bool
  patches : Option (List String)
deriving DecidableEq, Repr

/-- kyverno.Mutation: an overlay pattern and/or a literal patch list. -/
structure Mutation where
  overlay : Option Value
  patches : Option (List String)

/-- A policy rule as read by Mutate: name, precondition list and the
mutation spec. Conditions are kept abstract (evaluated by the
environment's EvaluateConditions). -/
structure MutRule where
  name : String
  conditions : List String
  mutation : Mutation

/-- Rule.HasMutate: the Mutation struct is non-empty. -/
def MutRule.hasMutate (r : MutRule) : Bool :=
  r.mutation.overlay.isSome || r.mutation.patches.isSome

/-- kyverno.ClusterPolicy, reduced to what Mutate reads. -/
structure ClusterPolicy where
  name : String
  rules : List MutRule

/-- engine.PolicyContext. -/
structure PolicyContext where
  policy : ClusterPolicy
  newResource : Resource
  context : Context
  admissionInfo : RequestInfo

/-- Resource identity stamped into the PolicyResponse by
startMutateResultResponse. -/
structure ResourceIdentity where
  name : String
  ns : String
  kind : String
  apiVersion : String
deriving DecidableEq, Repr

/-- response.PolicyResponse (processing time omitted: wall-clock only). -/
structure PolicyResponse where
  policy : String
  resource : ResourceIdentity
  rules : List RuleResponse
  rulesAppliedCount : Nat
deriving DecidableEq, Repr

/-- response.EngineResponse. -/
structure EngineResponse where
  policyResponse : PolicyResponse
  patchedResource : Resource
deriving DecidableEq, Repr

/-- needle occurs as a contiguous run inside hay. -/
def isInfixChars (needle : List Char) : List Char → Bool
  | [] => needle.isEmpty
  | c :: rest => needle.isPrefixOf (c :: rest) || isInfixChars needle rest

/-- Go strings.Contains(s, substr): substr occurs inside s. -/
def goStringsContains (s substr : String) : Bool :=
  isInfixChars substr.toList s.toList

/-- PodControllers: the list of Pod-controllers in a csv string. -/
def PodControllers : String := "DaemonSet,Deployment,Job,StatefulSet"

/-- The overlay carried by the built-in podTemplateRule: insert-if-absent
of the autogen-applied marker on the pod template metadata. -/
def podTemplateOverlay : Value :=
  .vmap [("spec", .vmap [("template", .vmap [("metadata", .vmap [("annotations",
    .vmap [("+(pod-policies.kyverno.io/autogen-applied)", .str "true")])])])])]

/-- podTemplateRule: the built-in rule value the autogen branch hands to
ProcessOverlay. -/
def podTemplateRule : MutRule :=
  { name := "autogen-annotate-podtemplate"
    conditions := []
    mutation := { overlay := some podTemplateOverlay, patches := none } }

/-- The second argument of mutate.ProcessOverlay is an interface\x7b\x7d: the
overlay phase passes the substituted overlay pattern, the autogen branch
passes the whole podTemplateRule value. -/
inductive OverlayArg where
  | pattern : Value → OverlayArg
  | rule : MutRule → OverlayArg

/-- The collaborators Mutate calls into other packages, as an explicit
environment. -/
structure MutateEnv where
  matchesResourceDescription : Resource → MutRule → RequestInfo → Option String
  evaluateConditions : Context → List String → Bool
  substituteVars : Context → Value → Except String Value
  processOverlay : String → OverlayArg → Resource → RuleResponse × Resource
  processPatches : MutRule → Resource → RuleResponse × Resource

/-- copyConditions: a deep copy before substitution; the identity in a
pure embedding. -/
def copyConditions (cs : List String) : List String := cs

/-- The loop state of Mutate: accumulated rule responses, the applied
count and the threaded patched resource. -/
structure MutState where
  rules : List RuleResponse
  count : Nat
  patched : Resource
deriving DecidableEq, Repr

/-- Overlay phase of one rule iteration. The returned flag is true when
the Go code executes `continue` (substitution failure, or success with
nil patches), skipping the patches phase and the autogen branch. -/
def overlayPhase (env : MutateEnv) (ctx : Context) (rule : MutRule)
    (st : MutState) : MutState × Bool :=
  match rule.mutation.overlay with
  | none => (st, false)
  | some overlay =>
    match env.substituteVars ctx overlay with
    | .error e =>
      ({ st with rules := st.rules ++ [⟨"", e, false, none⟩] }, true)
    | .ok overlay' =>
      let (rr, patched') := env.processOverlay rule.name (.pattern overlay') st.patched
      if rr.success && rr.patches.isNone then
        ({ st with patched := patched' }, true)
      else
        ({ rules := st.rules ++ [rr], count := st.count + 1, patched := patched' }, false)

/-- Patches phase of one rule iteration: ProcessPatches result is appended
and counted unconditionally when the rule declares literal patches. -/
def patchesPhase (env : MutateEnv) (rule : MutRule) (st : MutState) : MutState :=
  match rule.mutation.patches with
  | none => st
  | some _ =>
    let (rr, patched') := env.processPatches rule st.patched
    { rules := st.rules ++ [rr], count := st.count + 1, patched := patched' }

/-- Autogen branch of one rule iteration: skipped for an empty caller
identity; for a pod-controller kind it runs ProcessOverlay with the
built-in podTemplateRule, replacing the threaded resource even on
failure, and appends the response (without touching the applied count)
only on success with non-nil patches. -/
def autogenPhase (env : MutateEnv) (resource : Resource)
    (admissionInfo : RequestInfo) (rule : MutRule) (st : MutState) : MutState :=
  if admissionInfo = emptyRequestInfo then st
  else if goStringsContains PodControllers resource.kind then
    let (rr, patched') := env.processOverlay rule.name (.rule podTemplateRule) st.patched
    if !rr.success then { st with patched := patched' }
    else if rr.success && rr.patches.isSome then
      { st with rules := st.rules ++ [rr], patched := patched' }
    else { st with patched := patched' }
  else st

/-- One iteration of the rule loop of Mutate: the two skip gates, the
matcher ran on the original resource, the conditions evaluated on the
fixed context, then the three phases. -/
def mutateStep (env : MutateEnv) (resource : Resource) (ctx : Context)
    (admissionInfo : RequestInfo) (st : MutState) (rule : MutRule) : MutState :=
  if !rule.hasMutate && !goStringsContains PodControllers resource.kind then st
  else if (env.matchesResourceDescription resource rule admissionInfo).isSome then st
  else if !env.evaluateConditions ctx (copyConditions rule.conditions) then st
  else
    let (st1, skip) := overlayPhase env ctx rule st
    if skip then st1
    else
      let st2 := patchesPhase env rule st1
      autogenPhase env resource admissionInfo rule st2

/-- engine.Mutate: initialize the response shell, fold the rule loop over
the declared rule order threading the patched resource, and return the
final response. -/
def Mutate (env : MutateEnv) (pctx : PolicyContext) : EngineResponse :=
  let resource := pctx.newResource
  let ctx := pctx.context
  let final := pctx.policy.rules.foldl
    (mutateStep env resource ctx pctx.admissionInfo) ⟨[], 0, pctx.newResource⟩
  { policyResponse :=
      { policy := pctx.policy.name
        resource := ⟨resource.name, resource.ns, resource.kind, resource.apiVersion⟩
        rules := final.rules
        rulesAppliedCount := final.count }
    patchedResource := final.patched }

/-! ## Generate reconciler (pkg/generate/generate.go) -/

/-- kyverno.GenerateRequestState: the empty string is the initial (New)
state. -/
inductive GRState where
  | new
  | completed
  | failed
deriving DecidableEq, Repr

/-- kyverno.ResourceSpec. -/
structure ResourceSpec where
  kind : String
  ns : String
  name : String
deriving DecidableEq, Repr

/-- The zero ResourceSpec (`var noGenResource kyverno.ResourceSpec`). -/
def noGenResource : ResourceSpec := ⟨"", "", ""⟩

/-- kyverno.CloneFrom. -/
structure CloneFrom where
  ns : String
  name : String
deriving DecidableEq, Repr

/-- CloneFrom\x7b\x7d, the zero value `gen.Clone` is compared against. -/
def emptyCloneFrom : CloneFrom := ⟨"", ""⟩

/-- kyverno.Generation: target coordinates plus a data template and/or a
clone source. `gdata = none` is a nil Data field. -/
structure Generation where
  kind : String
  ns : String
  name : String
  gdata : Option Value
  clone : CloneFrom

/-- A rule as read by the generate path: Rule.HasGenerate holds exactly
when the generation spec is present (the Go check is non-emptiness of
the Generation struct, modelled as an Option). -/
structure GenRule where
  name : String
  generation : Option Generation

/-- The closed error taxonomy of package generate: ParseFailed, NotFound,
ConfigNotFound, Violation (wrapping a cause) and any other plain error;
the Go code switches on the concrete type. -/
inductive GenError where
  | parseFailed : String → GenError
  | notFound : String → String → String → GenError
  | configNotFound : String → String → String → GenError
  | violation : String → GenError → GenError
  | other : String → GenError
deriving DecidableEq, Repr

/-- A short rendering for err.Error(), carried into the Failed status. -/
def GenError.message : GenError → String
  | .parseFailed m => "parse failed: " ++ m
  | .notFound k n nm => "resource not found: " ++ k ++ "/" ++ n ++ "/" ++ nm
  | .configNotFound k n nm => "configuration not found: " ++ k ++ "/" ++ n ++ "/" ++ nm
  | .violation r e => "violation on rule " ++ r ++ ": " ++ e.message
  | .other m => m

/-- Result of client.GetResource: the object, a NotFound error
(errors.IsNotFound), or another store error. -/
inductive GetResult where
  | found : Value → GetResult
  | notFound
  | storeErr : String → GetResult

/-- The collaborators of the generate path (resource store, variable
substitution, the unstructured converter and the pattern validator),
as an explicit environment. -/
structure GenEnv where
  getResource : String → String → String → GetResult
  substituteVariables : Context → Value → Value
  substituteString : Context → String → Value
  toUnstructured : Value → Except String Value
  validateResourceWithPattern : Context → Value → Value → Option String
  createResource : String → String → String → Option Value → Option String

/-- checkResource: the subset validation of the template against the
existing object; returns (ok, error) exactly as the Go pair does
(false only together with an error). -/
def checkResource (env : GenEnv) (ctx : Context) (newResourceSpec : Value)
    (resource : Value) : Bool × Option String :=
  match env.validateResourceWithPattern ctx resource newResourceSpec with
  | some e => (false, some e)
  | none => (true, none)

/-- handleData: data-mode resolution. Returns the Go pair (rdata, err):
target missing and state New yields the converted template (or
ParseFailed); target missing in a terminal state yields a Violation
wrapping NotFound; an existing target is subset-validated, a passing
check yielding (nil, nil). -/
def handleData (env : GenEnv) (ruleName : String) (generateRule : Generation)
    (ctx : Context) (state : GRState) : Option Value × Option GenError :=
  let newData := env.substituteVariables ctx (generateRule.gdata.getD (.vmap []))
  match env.getResource generateRule.kind generateRule.ns generateRule.name with
  | .notFound =>
    if state = .new then
      match env.toUnstructured newData with
      | .error e => (none, some (.parseFailed e))
      | .ok rdata => (some rdata, none)
    else
      (none, some (.violation ruleName
        (.notFound generateRule.kind generateRule.ns generateRule.name)))
  | .storeErr e => (none, some (.other e))
  | .found obj =>
    let (ok, err) := checkResource env ctx newData obj
    match err with
    | some e => (none, some (.other e))
    | none =>
      if !ok then
        (none, some (.configNotFound generateRule.kind generateRule.ns generateRule.name))
      else
        (none, none)

/-- handleClone: clone-mode resolution. An existing target is a no-op; a
missing clone source is NotFound; otherwise the source content is the
creation payload. -/
def handleClone (env : GenEnv) (generateRule : Generation) (ctx : Context) :
    Option Value × Option GenError :=
  match env.getResource generateRule.kind generateRule.ns generateRule.name with
  | .found _ => (none, none)
  | .storeErr e => (none, some (.other e))
  | .notFound =>
    match env.getResource generateRule.kind generateRule.clone.ns generateRule.clone.name with
    | .notFound => (none, some (.notFound generateRule.kind generateRule.clone.ns
        generateRule.clone.name))
    | .storeErr e => (none, some (.other e))
    | .found obj =>
      -- obj.UnstructuredContent(): the source content is the payload
      (some obj, none)

/-- variableSubsitutionForAttributes: substitute name, namespace and the
clone coordinates, keeping the original value when the substitution
result is not a string (fail-open for these fields). -/
def variableSubsitutionForAttributes (env : GenEnv) (gen : Generation)
    (ctx : Context) : Generation :=
  let gen1 := match env.substituteString ctx gen.name with
    | .str s => { gen with name := s }
    | _ => gen
  let gen2 := match env.substituteString ctx gen1.ns with
    | .str s => { gen1 with ns := s }
    | _ => gen1
  let gen3 := match env.substituteString ctx gen2.clone.name with
    | .str s => { gen2 with clone := { gen2.clone with name := s } }
    | _ => gen2
  match env.substituteString ctx gen3.clone.ns with
  | .str s => { gen3 with clone := { gen3.clone with ns := s } }
  | _ => gen3

/-- The tail of applyRule after data/clone resolution: the processExisting
suppression (`return noGenResource, err`) and otherwise the single
store create call; the Nat counts create calls issued. -/
def applyRuleFinish (env : GenEnv) (gen : Generation) (newGenResource : ResourceSpec)
    (rdata : Option Value) (err : Option GenError) (processExisting : Bool) :
    ResourceSpec × Option GenError × Nat :=
  if processExisting then
    (noGenResource, err, 0)
  else
    match env.createResource gen.kind gen.ns gen.name rdata with
    | some e => (noGenResource, some (.other e), 1)
    | none => (newGenResource, none, 1)

/-- The clone branch of applyRule and what follows it; errSoFar threads the
Go `err` variable still in scope at the processExisting return. -/
def applyRuleClone (env : GenEnv) (gen : Generation) (newGenResource : ResourceSpec)
    (rdata0 : Option Value) (errSoFar : Option GenError) (ctx : Context)
    (processExisting : Bool) : ResourceSpec × Option GenError × Nat :=
  if gen.clone ≠ emptyCloneFrom then
    match handleClone env gen ctx with
    | (_, some e) =>
      -- both the NotFound case and the default case return the error
      (noGenResource, some e, 0)
    | (rdata, none) =>
      if rdata.isNone then
        -- resource already exists
        (newGenResource, none, 0)
      else
        applyRuleFinish env gen newGenResource rdata none processExisting
  else
    applyRuleFinish env gen newGenResource rdata0 errSoFar processExisting

/-- applyRule: attribute substitution, data-mode resolution with the
handled-error switch, clone-mode resolution, the processExisting
suppression and the final create. The Nat counts create calls. -/
def applyRule (env : GenEnv) (rule : GenRule) (ctx : Context)
    (state : GRState) (processExisting : Bool) :
    ResourceSpec × Option GenError × Nat :=
  match rule.generation with
  | none => (noGenResource, none, 0)
  | some gen0 =>
    let gen := variableSubsitutionForAttributes env gen0 ctx
    let newGenResource : ResourceSpec := ⟨gen.kind, gen.ns, gen.name⟩
    if gen.gdata.isSome then
      match handleData env rule.name gen ctx state with
      | (rdata, some e) =>
        match e with
        | .parseFailed _ | .notFound _ _ _ | .configNotFound _ _ _ =>
          -- handled errors: execution falls through to the rdata nil check
          if rdata.isNone then (newGenResource, none, 0)
          else applyRuleClone env gen newGenResource rdata (some e) ctx processExisting
        | .violation _ _ => (noGenResource, some e, 0)
        | .other _ => (noGenResource, some e, 0)
      | (rdata, none) =>
        if rdata.isNone then
          -- existing resource contains the configuration
          (newGenResource, none, 0)
        else
          applyRuleClone env gen newGenResource rdata none ctx processExisting
    else
      applyRuleClone env gen newGenResource none none ctx processExisting

/-- A policy as read by the generate path. -/
structure GenPolicy where
  name : String
  creationTimestamp : Nat
  rules : List GenRule

/-- The rule loop of applyGeneratePolicy: skip rules without generation,
abort on the first rule error returning a nil list, and accumulate the
per-rule ResourceSpecs and create-call count. -/
def applyGeneratePolicyAux (env : GenEnv) (ctx : Context) (state : GRState)
    (processExisting : Bool) :
    List GenRule → List ResourceSpec → Nat →
    Option (List ResourceSpec) × Option GenError × Nat
  | [], acc, n => (some acc, none, n)
  | r :: rs, acc, n =>
    if r.generation.isNone then
      applyGeneratePolicyAux env ctx state processExisting rs acc n
    else
      match applyRule env r ctx state processExisting with
      | (_, some e, c) => (none, some e, n + c)
      | (spec, none, c) =>
        applyGeneratePolicyAux env ctx state processExisting rs (acc ++ [spec]) (n + c)

/-- applyGeneratePolicy: compute processExisting by comparing the
triggering resource's creation time with the policy's, then run the
rule loop. The first component is `none` for a Go nil slice. -/
def applyGeneratePolicy (env : GenEnv) (policy : GenPolicy) (resource : Resource)
    (ctx : Context) (state : GRState) :
    Option (List ResourceSpec) × Option GenError × Nat :=
  let processExisting := resource.creationTimestamp < policy.creationTimestamp
  applyGeneratePolicyAux env ctx state processExisting policy.rules [] 0

/-! ## processGR, status handling (pkg/generate/generate.go) -/

/-- kyverno.GenerateRequest, reduced to what processGR reads. -/
structure GenerateRequest where
  policyName : String
  resourceRef : ResourceSpec
  state : GRState
deriving DecidableEq, Repr

/-- Modelled from the spec: the StatusControl collaborator (not under
src/) performs a single terminal write, `failed(request, message,
generated[])` or `success(request, generated[])`; this type records
which write updateStatus issued. -/
inductive StatusWrite where
  | failedWrite : String → Option (List ResourceSpec) → StatusWrite
  | completedWrite : Option (List ResourceSpec) → StatusWrite
deriving DecidableEq, Repr

/-- updateStatus: Failed with the error message when an error occurred,
Success otherwise, both carrying the genResources value it was handed. -/
def updateStatus (err : Option GenError) (genResources : Option (List ResourceSpec)) :
    StatusWrite :=
  match err with
  | some e => .failedWrite e.message genResources
  | none => .completedWrite genResources

/-- The environment of the controller around applyGenerate: the trigger
lookup, the policy lister, context construction (marshalling may fail)
and the guard engine pass (GenerateNew), reduced to the rule count the
code inspects. -/
structure CtrlEnv where
  genEnv : GenEnv
  getTriggerResource : ResourceSpec → Except String Resource
  getPolicy : String → Option GenPolicy
  buildContext : Resource → GenerateRequest → Except String Context
  generateNewRuleCount : GenPolicy → Resource → Nat

/-- applyGenerate: a missing policy returns (nil, nil); a marshalling
failure or a policy that no longer applies returns an error; otherwise
the generate rules are applied. -/
def applyGenerate (env : CtrlEnv) (resource : Resource) (gr : GenerateRequest) :
    Option (List ResourceSpec) × Option GenError × Nat :=
  match env.getPolicy gr.policyName with
  | none => (none, none, 0)
  | some policy =>
    match env.buildContext resource gr with
    | .error e => (none, some (.other e), 0)
    | .ok ctx =>
      if env.generateNewRuleCount policy resource = 0 then
        (none, some (.other ("policy " ++ gr.policyName ++ " does not apply")), 0)
      else
        applyGeneratePolicy env.genEnv policy resource ctx gr.state

/-- GenError.isViolation: the concrete-type switch arm of processGR. -/
def GenError.isViolation : GenError → Bool
  | .violation _ _ => true
  | _ => false

/-- The observable outcome of one processGR pass: the status write (none
when the trigger lookup failed), whether a policy violation was added,
the error processGR returned, and the number of create calls issued. -/
structure ProcessResult where
  statusWrite : Option StatusWrite
  pvAdded : Bool
  returnedErr : Option String
  createCalls : Nat
deriving DecidableEq, Repr

/-- processGR: locate the trigger (returning the error with no status
write on failure), apply the generate policy, add a policy violation
exactly for a Violation error, and write the terminal status. -/
def processGR (env : CtrlEnv) (gr : GenerateRequest) : ProcessResult :=
  match env.getTriggerResource gr.resourceRef with
  | .error e =>
    -- resource does not exist or is yet to be created: requeue, no status
    { statusWrite := none, pvAdded := false, returnedErr := some e, createCalls := 0 }
  | .ok resource =>
    match applyGenerate env resource gr with
    | (genResources, err, creates) =>
      { statusWrite := some (updateStatus err genResources)
        pvAdded := match err with | some e => e.isViolation | none => false
        returnedErr := none
        createCalls := creates }

/-- Modelled from the spec: the request state after a pass is the state
the terminal write stored (Failed or Completed), the prior state when
no write happened. -/
def stateAfter (gr : GenerateRequest) (r : ProcessResult) : GRState :=
  match r.statusWrite with
  | none => gr.state
  | some (.failedWrite _ _) => .failed
  | some (.completedWrite _) => .completed

/-! ## Reconciliation queue error handler (pkg/controller/controller.go) -/

/-- The two workqueue actions handleErr takes on an item. -/
inductive QueueAction where
  | forget
  | addRateLimited
deriving DecidableEq, Repr

/-- handleErr: forget on success; below the retry ceiling re-add with
rate-limited backoff; at or beyond the ceiling forget and only log.
The retry limit (policyWorkQueueRetryLimit, a package constant defined
outside src/) is a parameter. -/
def handleErr (retryLimit : Nat) (err : Option String) (numRequeues : Nat) :
    QueueAction :=
  match err with
  | none => .forget
  | some _ =>
    if numRequeues < retryLimit then .addRateLimited else .forget

/-- One failing pass over an item that has been re-queued n times already:
`some (n+1)` when it is re-queued (the workqueue counts rate-limited
re-adds), `none` when it is forgotten and leaves the queue. -/
def failStep (retryLimit n : Nat) : Option Nat :=
  match handleErr retryLimit (some "sync error") n with
  | .addRateLimited => some (n + 1)
  | .forget => none

/-- Total number of re-queues over `fuel` consecutive failing passes
starting from n prior re-queues; a forgotten item is never processed
again, so the count stops growing. -/
def runFailures (retryLimit : Nat) : Nat → Nat → Nat
  | 0, _ => 0
  | fuel + 1, n =>
    match failStep retryLimit n with
    | none => 0
    | some n' => 1 + runFailures retryLimit fuel n'

/-! ## Theorems -/

/-- Helper: over `fuel` consecutive failing passes starting from n prior
re-queues, the total number of re-queues is bounded by what remains of
the retry ceiling. -/
theorem runFailures_eq (retryLimit : Nat) :
    ∀ fuel n, runFailures retryLimit fuel n = min fuel (retryLimit - n) := by
  intro fuel
  induction fuel with
  | zero => intro n; simp [runFailures]
  | succ f ih =>
    intro n
    by_cases h : n < retryLimit
    · have hstep : failStep retryLimit n = some (n + 1) := by
        simp [failStep, handleErr, h]
      rw [runFailures, hstep]
      change 1 + runFailures retryLimit f (n + 1) = _
      rw [ih (n + 1)]
      omega
    · have hstep : failStep retryLimit n = none := by
        simp [failStep, handleErr, h]
      rw [runFailures, hstep]
      change (0 : Nat) = _
      omega

/-- C9: in handleErr, a failed item whose requeue count is below the retry
ceiling is re-added rate limited; an item already re-queued the
retry-limit number of times is forgotten; consequently, over any run of
consecutive failures an item is re-queued at most retryLimit times and,
once forgotten, never again. -/
theorem handleErr_retry_ceiling (retryLimit : Nat) (msg : String) :
    (∀ n, n < retryLimit → handleErr retryLimit (some msg) n = .addRateLimited)
    ∧ (∀ n, retryLimit ≤ n → handleErr retryLimit (some msg) n = .forget)
    ∧ (∀ fuel, runFailures retryLimit fuel 0 = min fuel retryLimit) := by
  refine ⟨?_, ?_, ?_⟩
  · intro n h; simp [handleErr, h]
  · intro n h; simp [handleErr, Nat.not_lt.mpr h]
  · intro fuel; rw [runFailures_eq retryLimit fuel 0]; simp

/-- C9 witness: with a retry limit of 5, a thrice-requeued failing item is
re-added, a five-times-requeued one is forgotten, and nine consecutive
failures re-queue the item exactly five times. -/
theorem handleErr_retry_ceiling_witness :
    handleErr 5 (some "sync failed") 3 = .addRateLimited
    ∧ handleErr 5 (some "sync failed") 5 = .forget
    ∧ runFailures 5 9 0 = min 9 5 :=
  ⟨(handleErr_retry_ceiling 5 "sync failed").1 3 (by decide),
   (handleErr_retry_ceiling 5 "sync failed").2.1 5 (by decide),
   (handleErr_retry_ceiling 5 "sync failed").2.2 9⟩

/-- An environment in which every gate that is not under test passes and
both overlay calls succeed with patches. -/
def envSubstringGate : MutateEnv :=
  { matchesResourceDescription := fun _ _ _ => none
    evaluateConditions := fun _ _ => true
    substituteVars := fun _ v => .ok v
    processOverlay := fun nm arg res =>
      match arg with
      | .pattern _ => (⟨nm, "", true, some ["pattern-patch"]⟩, res)
      | .rule _ => (⟨nm, "", true, some ["autogen-patch"]⟩, res)
    processPatches := fun r res => (⟨r.name, "", true, none⟩, res) }

/-- A resource of the given kind with no other identity. -/
def plainResource (k : String) : Resource :=
  { kind := k, apiVersion := "v1", name := "res", ns := "default"
    labels := [], creationTimestamp := 0 }

/-- A policy holding one rule with no mutation capability at all: only the
pod-controller containment check lets the loop body run for it. -/
def noMutatePolicyCtx (k : String) : PolicyContext :=
  { policy := { name := "p"
                rules := [{ name := "r", conditions := []
                            mutation := { overlay := none, patches := none } }] }
    newResource := plainResource k
    context := ⟨plainResource k, ""⟩
    admissionInfo := ⟨[], [], "someone"⟩ }

/-- C10: membership in the pod-controller autogen set is substring
containment in the csv constant: for every kind occurring anywhere as a
substring of PodControllers, a rule with no mutation capability is not
skipped (the rule-skip gate passes) and the autogen injection branch
runs, appending the autogen RuleResponse. -/
theorem podController_substring_gates (k : String)
    (h : goStringsContains PodControllers k = true) :
    (Mutate envSubstringGate (noMutatePolicyCtx k)).policyResponse.rules =
      [⟨"r", "", true, some ["autogen-patch"]⟩] := by
  simp [Mutate, noMutatePolicyCtx, plainResource, mutateStep, MutRule.hasMutate, h,
    envSubstringGate, overlayPhase, patchesPhase, autogenPhase, emptyRequestInfo,
    copyConditions]

/-- C10 witness: the fragment kinds "Set" and "," are treated as
pod-controller kinds by both gates. -/
theorem podController_substring_gates_witness :
    (goStringsContains PodControllers "Set" = true
      ∧ (Mutate envSubstringGate (noMutatePolicyCtx "Set")).policyResponse.rules =
          [⟨"r", "", true, some ["autogen-patch"]⟩])
    ∧ (goStringsContains PodControllers "," = true
      ∧ (Mutate envSubstringGate (noMutatePolicyCtx ",")).policyResponse.rules =
          [⟨"r", "", true, some ["autogen-patch"]⟩]) :=
  ⟨⟨by decide, podController_substring_gates "Set" (by decide)⟩,
   ⟨by decide, podController_substring_gates "," (by decide)⟩⟩

/-- Environment for the sequential-visibility scenario: rule R1's overlay
adds the label a=1, rule R2's overlay adds b=2, and the condition
"label-a-eq-1" holds of a context exactly when the resource the context
was built from carries the label a=1. -/
def envLabelChain : MutateEnv :=
  { matchesResourceDescription := fun _ _ _ => none
    evaluateConditions := fun ctx conds =>
      conds.all (fun c =>
        if c = "label-a-eq-1" then ctx.resource.labels.contains ("a", "1") else true)
    substituteVars := fun _ v => .ok v
    processOverlay := fun nm arg res =>
      match arg with
      | .pattern _ =>
        if nm = "R1" then
          (⟨"R1", "", true, some ["add-label-a"]⟩, { res with labels := ("a", "1") :: res.labels })
        else if nm = "R2" then
          (⟨"R2", "", true, some ["add-label-b"]⟩, { res with labels := ("b", "2") :: res.labels })
        else (⟨nm, "", false, none⟩, res)
      | .rule _ => (⟨nm, "", false, none⟩, res)
    processPatches := fun r res => (⟨r.name, "", true, none⟩, res) }

/-- R1: an overlay rule with no preconditions. -/
def ruleR1 : MutRule :=
  { name := "R1", conditions := [], mutation := { overlay := some (.str "ov1"), patches := none } }

/-- R2: an overlay rule whose precondition requires the label a=1. -/
def ruleR2 : MutRule :=
  { name := "R2", conditions := ["label-a-eq-1"]
    mutation := { overlay := some (.str "ov2"), patches := none } }

/-- R2 with the precondition dropped, to expose what the overlay target of
the second rule actually is. -/
def ruleR2free : MutRule :=
  { name := "R2", conditions := [], mutation := { overlay := some (.str "ov2"), patches := none } }

/-- A Pod resource carrying the given labels. -/
def podWithLabels (lbls : List (String × String)) : Resource :=
  { kind := "Pod", apiVersion := "v1", name := "pod1", ns := "default"
    labels := lbls, creationTimestamp := 0 }

/-- The policy context of the scenario: the evaluation context is built
from the original resource, the caller identity is empty (background
pass) so the autogen branch stays out of the picture. -/
def labelChainCtx (r2 : MutRule) (lbls : List (String × String)) : PolicyContext :=
  { policy := { name := "chain", rules := [ruleR1, r2] }
    newResource := podWithLabels lbls
    context := ⟨podWithLabels lbls, ""⟩
    admissionInfo := emptyRequestInfo }

/-- C1 counterexample: with R1 adding the label a=1 and R2's condition
requiring it, R2 does not match — only R1's response is recorded even
though the threaded patched resource does carry the label, because the
conditions are evaluated against the context built from the original
resource. -/
theorem mutate_sequential_visibility_ce :
    ((Mutate envLabelChain (labelChainCtx ruleR2 [])).policyResponse.rules.map
        RuleResponse.name = ["R1"])
    ∧ (Mutate envLabelChain (labelChainCtx ruleR2 [])).patchedResource.labels
        = [("a", "1")] := by
  constructor <;> rfl

/-- C1 amended: the patched resource is threaded sequentially into the
mutation calls only — the second rule's overlay target is the resource
as patched by the first rule, but the matcher runs on the original
resource and the conditions on the context built from it, so a
condition requiring a label R1 just added does not hold and R2 is
skipped. -/
theorem mutate_sequential_threading (lbls : List (String × String))
    (h : lbls.contains ("a", "1") = false) :
    (((Mutate envLabelChain (labelChainCtx ruleR2 lbls)).policyResponse.rules.map
          RuleResponse.name = ["R1"])
      ∧ (Mutate envLabelChain (labelChainCtx ruleR2 lbls)).patchedResource.labels
          = ("a", "1") :: lbls)
    ∧ (((Mutate envLabelChain (labelChainCtx ruleR2free lbls)).policyResponse.rules.map
          RuleResponse.name = ["R1", "R2"])
      ∧ (Mutate envLabelChain (labelChainCtx ruleR2free lbls)).patchedResource.labels
          = ("b", "2") :: ("a", "1") :: lbls) := by
  have hm : ("a", "1") ∉ lbls := by simpa using h
  refine ⟨⟨?_, ?_⟩, ⟨?_, ?_⟩⟩ <;>
    simp [Mutate, labelChainCtx, podWithLabels, mutateStep, MutRule.hasMutate,
      envLabelChain, overlayPhase, patchesPhase, autogenPhase, emptyRequestInfo,
      copyConditions, ruleR1, ruleR2, ruleR2free, hm]

/-- C1 amended witness: the scenario at the empty label list. -/
theorem mutate_sequential_threading_witness :
    (((Mutate envLabelChain (labelChainCtx ruleR2 [])).policyResponse.rules.map
          RuleResponse.name = ["R1"])
      ∧ (Mutate envLabelChain (labelChainCtx ruleR2 [])).patchedResource.labels
          = [("a", "1")])
    ∧ (((Mutate envLabelChain (labelChainCtx ruleR2free [])).policyResponse.rules.map
          RuleResponse.name = ["R1", "R2"])
      ∧ (Mutate envLabelChain (labelChainCtx ruleR2free [])).patchedResource.labels
          = [("b", "2"), ("a", "1")]) :=
  mutate_sequential_threading [] (by decide)

/-- Environment whose overlay phase returns the given response unchanged
(the autogen call fails so it stays silent). -/
def envOverlayResp (rr : RuleResponse) : MutateEnv :=
  { matchesResourceDescription := fun _ _ _ => none
    evaluateConditions := fun _ _ => true
    substituteVars := fun _ v => .ok v
    processOverlay := fun _ arg res =>
      match arg with
      | .pattern _ => (rr, res)
      | .rule _ => (⟨"", "", false, none⟩, res)
    processPatches := fun r res => (⟨r.name, "", true, none⟩, res) }

/-- Environment whose patches phase returns the given response. -/
def envPatchesResp (rr : RuleResponse) : MutateEnv :=
  { matchesResourceDescription := fun _ _ _ => none
    evaluateConditions := fun _ _ => true
    substituteVars := fun _ v => .ok v
    processOverlay := fun _ _ res => (⟨"", "", false, none⟩, res)
    processPatches := fun _ res => (rr, res) }

/-- Environment whose autogen overlay call returns the given response. -/
def envAutogenResp (rr : RuleResponse) : MutateEnv :=
  { matchesResourceDescription := fun _ _ _ => none
    evaluateConditions := fun _ _ => true
    substituteVars := fun _ v => .ok v
    processOverlay := fun _ arg res =>
      match arg with
      | .pattern _ => (⟨"", "", false, none⟩, res)
      | .rule _ => (rr, res)
    processPatches := fun _ res => (⟨"", "", true, none⟩, res) }

/-- A single-rule policy context over a plain Pod with empty caller
identity (no autogen), the rule carrying the given mutation. -/
def singleRuleCtx (m : Mutation) : PolicyContext :=
  { policy := { name := "p", rules := [{ name := "m-rule", conditions := [], mutation := m }] }
    newResource := plainResource "Pod"
    context := ⟨plainResource "Pod", ""⟩
    admissionInfo := emptyRequestInfo }

/-- A single-rule policy context over a Deployment with non-empty caller
identity, so the autogen branch runs after the rule's own phases. -/
def deployRuleCtx (m : Mutation) : PolicyContext :=
  { policy := { name := "p", rules := [{ name := "m-rule", conditions := [], mutation := m }] }
    newResource := plainResource "Deployment"
    context := ⟨plainResource "Deployment", ""⟩
    admissionInfo := ⟨[], [], "someone"⟩ }

/-- The exact kind Deployment is one of the pod-controller kinds. -/
theorem podControllers_has_deployment :
    goStringsContains PodControllers "Deployment" = true := by decide

/-- C3 counterexample: a raw-patch phase returning success=true with nil
patches is recorded and counted as applied — RulesAppliedCount becomes
1 although no phase produced non-nil patches. -/
theorem appliedCount_nil_patches_ce :
    (Mutate (envPatchesResp ⟨"m-rule", "", true, none⟩)
        (singleRuleCtx { overlay := none, patches := some ["op"] })).policyResponse
      = { policy := "p"
          resource := ⟨"res", "default", "Pod", "v1"⟩
          rules := [⟨"m-rule", "", true, none⟩]
          rulesAppliedCount := 1 } := by
  rfl

/-- C3 amended: the overlay phase records and counts its response both on
success with non-nil patches and on failure, while a success with nil
patches is skipped entirely (neither recorded nor counted); the
raw-patch phase records and counts unconditionally; the autogen phase
records on success with patches but never increments the count. -/
theorem appliedCount_per_phase :
    (∀ rr : RuleResponse,
      (Mutate (envOverlayResp rr)
          (singleRuleCtx { overlay := some (.str "ov"), patches := none })).policyResponse.rules
        = (if rr.success && rr.patches.isNone then [] else [rr])
      ∧ (Mutate (envOverlayResp rr)
          (singleRuleCtx { overlay := some (.str "ov"), patches := none })).policyResponse.rulesAppliedCount
        = (if rr.success && rr.patches.isNone then 0 else 1))
    ∧ (∀ rr : RuleResponse,
      (Mutate (envPatchesResp rr)
          (singleRuleCtx { overlay := none, patches := some ["op"] })).policyResponse.rules = [rr]
      ∧ (Mutate (envPatchesResp rr)
          (singleRuleCtx { overlay := none, patches := some ["op"] })).policyResponse.rulesAppliedCount = 1)
    ∧ (∀ rr : RuleResponse,
      (Mutate (envAutogenResp rr)
          (deployRuleCtx { overlay := none, patches := none })).policyResponse.rules
        = (if rr.success && rr.patches.isSome then [rr] else [])
      ∧ (Mutate (envAutogenResp rr)
          (deployRuleCtx { overlay := none, patches := none })).policyResponse.rulesAppliedCount = 0) := by
  refine ⟨?_, ?_, ?_⟩ <;> intro rr <;>
    obtain ⟨nm, msg, s, ps⟩ := rr <;> cases s <;> cases ps <;>
      constructor <;>
        simp [Mutate, singleRuleCtx, deployRuleCtx, plainResource, mutateStep,
          MutRule.hasMutate, envOverlayResp, envPatchesResp, envAutogenResp,
          overlayPhase, patchesPhase, autogenPhase, emptyRequestInfo, copyConditions,
          podControllers_has_deployment]

/-- Environment whose rule overlays succeed with an own patch and whose
autogen call returns the given response. -/
def envOwnPlusAutogen (agResp : RuleResponse) : MutateEnv :=
  { matchesResourceDescription := fun _ _ _ => none
    evaluateConditions := fun _ _ => true
    substituteVars := fun _ v => .ok v
    processOverlay := fun nm arg res =>
      match arg with
      | .pattern _ => (⟨nm, "", true, some ["own-patch"]⟩, res)
      | .rule _ => (agResp, res)
    processPatches := fun r res => (⟨r.name, "", true, none⟩, res) }

/-- An overlay rule with no preconditions. -/
def overlayRule (nm : String) : MutRule :=
  { name := nm, conditions := [], mutation := { overlay := some (.str "ov"), patches := none } }

/-- A policy context over a resource of the given kind with the given
caller identity. -/
def autogenCtx (kind : String) (ai : RequestInfo) (rules : List MutRule) : PolicyContext :=
  { policy := { name := "p", rules := rules }
    newResource := plainResource kind
    context := ⟨plainResource kind, ""⟩
    admissionInfo := ai }

/-- A successful autogen response stamping the marker. -/
def agOK : RuleResponse := ⟨"r1", "inserted autogen marker", true, some ["ag-patch"]⟩

/-- A failing autogen response. -/
def agFail : RuleResponse := ⟨"", "overlay failed on pod template", false, none⟩

/-- C6 counterexample: on a Deployment with non-empty caller identity and
an autogen overlay succeeding with patches, the extra RuleResponse is
appended but RulesAppliedCount stays at 1 (the rule's own overlay): the
autogen branch does not increment the applied count. -/
theorem autogen_count_ce :
    (Mutate (envOwnPlusAutogen agOK)
        (autogenCtx "Deployment" ⟨[], [], "someone"⟩ [overlayRule "r1"])).policyResponse
      = { policy := "p"
          resource := ⟨"res", "default", "Deployment", "v1"⟩
          rules := [⟨"r1", "", true, some ["own-patch"]⟩, agOK]
          rulesAppliedCount := 1 } := by
  rfl

/-- C6 amended: the autogen injector runs only for kinds inside the
pod-controller containment check and only for a non-empty caller
identity; success with non-nil patches appends an extra RuleResponse
without incrementing the applied count; a failure is silent and does
not fail the outer rule — iteration continues with the next rule. -/
theorem autogen_gating :
    ((Mutate (envOwnPlusAutogen agOK)
        (autogenCtx "Deployment" emptyRequestInfo [overlayRule "r1"])).policyResponse.rules
      = [⟨"r1", "", true, some ["own-patch"]⟩])
    ∧ ((Mutate (envOwnPlusAutogen agOK)
        (autogenCtx "Pod" ⟨[], [], "someone"⟩ [overlayRule "r1"])).policyResponse.rules
      = [⟨"r1", "", true, some ["own-patch"]⟩])
    ∧ (∀ rr : RuleResponse,
      (Mutate (envOwnPlusAutogen rr)
          (autogenCtx "Deployment" ⟨[], [], "someone"⟩ [overlayRule "r1"])).policyResponse.rules
        = [⟨"r1", "", true, some ["own-patch"]⟩]
            ++ (if rr.success && rr.patches.isSome then [rr] else [])
      ∧ (Mutate (envOwnPlusAutogen rr)
          (autogenCtx "Deployment" ⟨[], [], "someone"⟩ [overlayRule "r1"])).policyResponse.rulesAppliedCount
        = 1)
    ∧ ((Mutate (envOwnPlusAutogen agFail)
        (autogenCtx "Deployment" ⟨[], [], "someone"⟩ [overlayRule "r1", overlayRule "r2"])).policyResponse.rules
      = [⟨"r1", "", true, some ["own-patch"]⟩, ⟨"r2", "", true, some ["own-patch"]⟩]) := by
  refine ⟨by rfl, by rfl, ?_, by rfl⟩
  intro rr
  obtain ⟨nm, msg, s, ps⟩ := rr
  cases s <;> cases ps <;>
    constructor <;>
      simp [Mutate, autogenCtx, overlayRule, plainResource, mutateStep,
        MutRule.hasMutate, envOwnPlusAutogen, overlayPhase, patchesPhase,
        autogenPhase, emptyRequestInfo, copyConditions, podControllers_has_deployment]

/-- C2: in a data-mode generate pass with the target missing, a request
whose state is already terminal (a replay) issues no create call and
returns a Violation, while the first delivery (state New) issues the
create: exactly one create call total across both deliveries. -/
theorem generate_replay_no_recreate (env : GenEnv) (ctx : Context) (rule : GenRule)
    (gen : Generation) (state : GRState) (rdata : Value)
    (hrule : rule.generation = some gen)
    (hfix : variableSubsitutionForAttributes env gen ctx = gen)
    (hdata : gen.gdata.isSome = true)
    (hclone : gen.clone = emptyCloneFrom)
    (hmiss : env.getResource gen.kind gen.ns gen.name = .notFound)
    (hconv : env.toUnstructured (env.substituteVariables ctx (gen.gdata.getD (.vmap [])))
        = .ok rdata)
    (hcreate : env.createResource gen.kind gen.ns gen.name (some rdata) = none)
    (hstate : state ≠ .new) :
    applyRule env rule ctx state false
        = (noGenResource, some (.violation rule.name (.notFound gen.kind gen.ns gen.name)), 0)
    ∧ applyRule env rule ctx .new false = (⟨gen.kind, gen.ns, gen.name⟩, none, 1)
    ∧ (applyRule env rule ctx .new false).2.2
        + (applyRule env rule ctx state false).2.2 = 1 := by
  have hd : handleData env rule.name gen ctx state
      = (none, some (.violation rule.name (.notFound gen.kind gen.ns gen.name))) := by
    simp [handleData, hmiss, hstate]
  have hd2 : handleData env rule.name gen ctx .new = (some rdata, none) := by
    simp [handleData, hmiss, hconv]
  have h1 : applyRule env rule ctx state false
      = (noGenResource, some (.violation rule.name (.notFound gen.kind gen.ns gen.name)), 0) := by
    simp [applyRule, hrule, hfix, hdata, hd]
  have h2 : applyRule env rule ctx .new false = (⟨gen.kind, gen.ns, gen.name⟩, none, 1) := by
    simp [applyRule, hrule, hfix, hdata, hd2, applyRuleClone, hclone, applyRuleFinish,
      hcreate]
  exact ⟨h1, h2, by simp [h1, h2]⟩

/-- A store in which the generate target never exists and everything else
succeeds. -/
def replayStoreEnv : GenEnv :=
  { getResource := fun _ _ _ => .notFound
    substituteVariables := fun _ v => v
    substituteString := fun _ s => .str s
    toUnstructured := fun v => .ok v
    validateResourceWithPattern := fun _ _ _ => none
    createResource := fun _ _ _ _ => none }

/-- A data-mode generation target: a ConfigMap built from an inline
template. -/
def cmGen : Generation :=
  { kind := "ConfigMap", ns := "ns1", name := "cm1"
    gdata := some (.str "tpl"), clone := emptyCloneFrom }

/-- The generate rule carrying cmGen. -/
def cmRule : GenRule := { name := "gen-cm", generation := some cmGen }

/-- An evaluation context built from a triggering resource. -/
def triggerCtx : Context := ⟨plainResource "Namespace", "someone"⟩

/-- C2 witness: the ConfigMap scenario, first delivery against replay. -/
theorem generate_replay_no_recreate_witness :
    applyRule replayStoreEnv cmRule triggerCtx .completed false
        = (noGenResource, some (.violation "gen-cm" (.notFound "ConfigMap" "ns1" "cm1")), 0)
    ∧ applyRule replayStoreEnv cmRule triggerCtx .new false
        = (⟨"ConfigMap", "ns1", "cm1"⟩, none, 1)
    ∧ (applyRule replayStoreEnv cmRule triggerCtx .new false).2.2
        + (applyRule replayStoreEnv cmRule triggerCtx .completed false).2.2 = 1 :=
  generate_replay_no_recreate replayStoreEnv triggerCtx cmRule cmGen .completed (.str "tpl")
    rfl rfl rfl rfl rfl rfl rfl (by decide)

/-- A store in which the target is missing and the template cannot be
converted to structured form. -/
def parseFailStoreEnv : GenEnv :=
  { getResource := fun _ _ _ => .notFound
    substituteVariables := fun _ v => v
    substituteString := fun _ s => .str s
    toUnstructured := fun _ => .error "cannot convert template"
    validateResourceWithPattern := fun _ _ _ => none
    createResource := fun _ _ _ _ => none }

/-- C4 counterexample: a ParseFailed error in data mode does not propagate
to the caller — applyRule swallows it, reporting the intended
ResourceSpec with no error (and no create call). -/
theorem parse_failed_swallowed_ce :
    applyRule parseFailStoreEnv cmRule triggerCtx .new false
      = (⟨"ConfigMap", "ns1", "cm1"⟩, none, 0) := by
  rfl

/-- C4 amended: ParseFailed (and the other handled kinds) abort the rule's
creation but are swallowed — applyRule returns the intended
ResourceSpec with nil error; a failing subset validation of an existing
target propagates the raw validation error as a plain error (so
ConfigNotFound is never surfaced); and a policy-violation record is
produced exactly for a Violation error. -/
theorem generate_handled_errors
    (env env2 : GenEnv) (ctx : Context) (rule : GenRule) (gen : Generation)
    (pe : Bool) (emsg vmsg : String) (obj : Value)
    (hrule : rule.generation = some gen)
    (hfix : variableSubsitutionForAttributes env gen ctx = gen)
    (hfix2 : variableSubsitutionForAttributes env2 gen ctx = gen)
    (hdata : gen.gdata.isSome = true)
    (hmiss : env.getResource gen.kind gen.ns gen.name = .notFound)
    (hconvFail : env.toUnstructured (env.substituteVariables ctx (gen.gdata.getD (.vmap [])))
        = .error emsg)
    (hfound : env2.getResource gen.kind gen.ns gen.name = .found obj)
    (hval : env2.validateResourceWithPattern ctx obj
        (env2.substituteVariables ctx (gen.gdata.getD (.vmap []))) = some vmsg) :
    applyRule env rule ctx .new pe = (⟨gen.kind, gen.ns, gen.name⟩, none, 0)
    ∧ applyRule env2 rule ctx .new pe = (noGenResource, some (.other vmsg), 0)
    ∧ (∀ (cenv : CtrlEnv) (gr : GenerateRequest) (resource : Resource),
        cenv.getTriggerResource gr.resourceRef = .ok resource →
        (processGR cenv gr).pvAdded
          = (match (applyGenerate cenv resource gr).2.1 with
             | some e => e.isViolation
             | none => false)) := by
  have hd : handleData env rule.name gen ctx .new = (none, some (.parseFailed emsg)) := by
    simp [handleData, hmiss, hconvFail]
  have hd2 : handleData env2 rule.name gen ctx .new = (none, some (.other vmsg)) := by
    simp [handleData, hfound, checkResource, hval]
  refine ⟨?_, ?_, ?_⟩
  · simp [applyRule, hrule, hfix, hdata, hd]
  · simp [applyRule, hrule, hfix2, hdata, hd2]
  · intro cenv gr resource htrig
    simp [processGR, htrig]

/-- A store in which the target exists but fails the subset validation. -/
def driftedStoreEnv : GenEnv :=
  { getResource := fun _ _ _ => .found (.str "existing")
    substituteVariables := fun _ v => v
    substituteString := fun _ s => .str s
    toUnstructured := fun v => .ok v
    validateResourceWithPattern := fun _ _ _ => some "field mismatch at /data"
    createResource := fun _ _ _ _ => none }

/-- C4 amended witness: the ConfigMap scenario under the parse-failing
store and the drifted store, plus the violation/record equivalence at a
concrete controller environment. -/
theorem generate_handled_errors_witness :
    applyRule parseFailStoreEnv cmRule triggerCtx .new false
        = (⟨"ConfigMap", "ns1", "cm1"⟩, none, 0)
    ∧ applyRule driftedStoreEnv cmRule triggerCtx .new false
        = (noGenResource, some (.other "field mismatch at /data"), 0)
    ∧ (∀ (cenv : CtrlEnv) (gr : GenerateRequest) (resource : Resource),
        cenv.getTriggerResource gr.resourceRef = .ok resource →
        (processGR cenv gr).pvAdded
          = (match (applyGenerate cenv resource gr).2.1 with
             | some e => e.isViolation
             | none => false)) :=
  generate_handled_errors parseFailStoreEnv driftedStoreEnv triggerCtx cmRule cmGen false
    "cannot convert template" "field mismatch at /data" (.str "existing")
    rfl rfl rfl rfl rfl rfl rfl rfl

/-- C5: when the triggering resource predates the policy
(processExisting), the final create is suppressed: the rule contributes
an empty ResourceSpec with no error and no create call even though data
resolution succeeded, while the replay Violation check still runs. -/
theorem processExisting_suppression
    (env : GenEnv) (ctx : Context) (policy : GenPolicy) (resource : Resource)
    (rule : GenRule) (gen : Generation) (rdata : Value)
    (hrules : policy.rules = [rule])
    (hrule : rule.generation = some gen)
    (hfix : variableSubsitutionForAttributes env gen ctx = gen)
    (hdata : gen.gdata.isSome = true)
    (hclone : gen.clone = emptyCloneFrom)
    (hmiss : env.getResource gen.kind gen.ns gen.name = .notFound)
    (hconv : env.toUnstructured (env.substituteVariables ctx (gen.gdata.getD (.vmap [])))
        = .ok rdata)
    (hts : resource.creationTimestamp < policy.creationTimestamp)
    (env2 : GenEnv) (rule2 : GenRule) (gen2 : Generation) (obj : Value)
    (hrule2 : rule2.generation = some gen2)
    (hfix2 : variableSubsitutionForAttributes env2 gen2 ctx = gen2)
    (hnodata : gen2.gdata.isSome = false)
    (hcloneNe : gen2.clone ≠ emptyCloneFrom)
    (htargetMiss : env2.getResource gen2.kind gen2.ns gen2.name = .notFound)
    (hsource : env2.getResource gen2.kind gen2.clone.ns gen2.clone.name = .found obj) :
    applyGeneratePolicy env policy resource ctx .new = (some [noGenResource], none, 0)
    ∧ applyRule env rule ctx .completed true
        = (noGenResource, some (.violation rule.name (.notFound gen.kind gen.ns gen.name)), 0)
    ∧ applyRule env2 rule2 ctx .new true = (noGenResource, none, 0) := by
  have hd : handleData env rule.name gen ctx .new = (some rdata, none) := by
    simp [handleData, hmiss, hconv]
  have hd2 : handleData env rule.name gen ctx .completed
      = (none, some (.violation rule.name (.notFound gen.kind gen.ns gen.name))) := by
    simp [handleData, hmiss]
  have hc : handleClone env2 gen2 ctx = (some obj, none) := by
    simp [handleClone, htargetMiss, hsource]
  have hr : applyRule env rule ctx .new true = (noGenResource, none, 0) := by
    simp [applyRule, hrule, hfix, hdata, hd, applyRuleClone, hclone, applyRuleFinish]
  refine ⟨?_, ?_, ?_⟩
  · simp [applyGeneratePolicy, decide_eq_true hts, hrules, applyGeneratePolicyAux,
      hrule, hr]
  · simp [applyRule, hrule, hfix, hdata, hd2]
  · simp [applyRule, hrule2, hfix2, hnodata, applyRuleClone, hcloneNe, hc,
      applyRuleFinish]

/-- A single-rule generate policy created at the given instant. -/
def cmPolicy (ts : Nat) : GenPolicy := { name := "gp", creationTimestamp := ts, rules := [cmRule] }

/-- A triggering resource created at instant 3. -/
def oldTrigger : Resource :=
  { kind := "Namespace", apiVersion := "v1", name := "ns-trigger", ns := ""
    labels := [], creationTimestamp := 3 }

/-- A store for the clone scenario: the clone source exists in src-ns,
nothing else does. -/
def cloneStoreEnv : GenEnv :=
  { getResource := fun _ ns _ => if ns = "src-ns" then .found (.str "src-obj") else .notFound
    substituteVariables := fun _ v => v
    substituteString := fun _ s => .str s
    toUnstructured := fun v => .ok v
    validateResourceWithPattern := fun _ _ _ => none
    createResource := fun _ _ _ _ => none }

/-- A clone-mode generation target. -/
def secretCloneGen : Generation :=
  { kind := "Secret", ns := "ns1", name := "sec1"
    gdata := none, clone := ⟨"src-ns", "src-sec"⟩ }

/-- The generate rule carrying secretCloneGen. -/
def secretCloneRule : GenRule := { name := "gen-sec", generation := some secretCloneGen }

/-- C5 witness: a trigger created at 3 against a policy created at 5, with
the data resolution succeeding: the pass reports one empty ResourceSpec
and performs no create; the replay check still yields a Violation; and
the clone-mode rule is suppressed the same way. -/
theorem processExisting_suppression_witness :
    applyGeneratePolicy replayStoreEnv (cmPolicy 5) oldTrigger triggerCtx .new
        = (some [noGenResource], none, 0)
    ∧ applyRule replayStoreEnv cmRule triggerCtx .completed true
        = (noGenResource, some (.violation "gen-cm" (.notFound "ConfigMap" "ns1" "cm1")), 0)
    ∧ applyRule cloneStoreEnv secretCloneRule triggerCtx .new true
        = (noGenResource, none, 0) :=
  processExisting_suppression replayStoreEnv triggerCtx (cmPolicy 5) oldTrigger cmRule cmGen
    (.str "tpl") rfl rfl rfl rfl rfl rfl rfl (by decide)
    cloneStoreEnv secretCloneRule secretCloneGen (.str "src-obj")
    rfl rfl rfl (by decide) rfl rfl

/-- Helper: when the rule loop of applyGeneratePolicy returns an error, the
returned resource list is the Go nil slice — any partial list built
before the failing rule is discarded. -/
theorem applyGeneratePolicyAux_err_nil (env : GenEnv) (ctx : Context) (state : GRState)
    (pe : Bool) :
    ∀ (rules : List GenRule) (acc : List ResourceSpec) (n : Nat) (e : GenError),
      (applyGeneratePolicyAux env ctx state pe rules acc n).2.1 = some e →
      (applyGeneratePolicyAux env ctx state pe rules acc n).1 = none := by
  intro rules
  induction rules with
  | nil => intro acc n e h; simp [applyGeneratePolicyAux] at h
  | cons r rs ih =>
    intro acc n e h
    by_cases hg : r.generation.isNone
    · rw [applyGeneratePolicyAux, if_pos hg] at h ⊢
      exact ih acc n e h
    · rw [applyGeneratePolicyAux, if_neg hg] at h ⊢
      rcases hr : applyRule env r ctx state pe with ⟨spec, err, c⟩
      cases err with
      | some e' => rfl
      | none =>
        rw [hr] at h
        exact ih (acc ++ [spec]) (n + c) e h

/-- Helper: an applyGenerate pass that ends in an error hands a nil
resource list to the status update. -/
theorem applyGenerate_err_nil (cenv : CtrlEnv) (resource : Resource)
    (gr : GenerateRequest) (e : GenError)
    (h : (applyGenerate cenv resource gr).2.1 = some e) :
    (applyGenerate cenv resource gr).1 = none := by
  revert h
  unfold applyGenerate
  cases cenv.getPolicy gr.policyName with
  | none => intro h; exact Option.noConfusion h
  | some policy =>
    cases cenv.buildContext resource gr with
    | error msg => intro h; rfl
    | ok ctx =>
      by_cases hc : cenv.generateNewRuleCount policy resource = 0
      · simp only [if_pos hc]; intro h; trivial
      · simp only [if_neg hc]
        intro h
        exact applyGeneratePolicyAux_err_nil cenv.genEnv ctx gr.state _ policy.rules [] 0 e h

/-- A store in which cm1 can be created but every access to cm2 fails with
a transient store error. -/
def flakyStoreEnv : GenEnv :=
  { getResource := fun _ _ nm => if nm = "cm2" then .storeErr "store down" else .notFound
    substituteVariables := fun _ v => v
    substituteString := fun _ s => .str s
    toUnstructured := fun v => .ok v
    validateResourceWithPattern := fun _ _ _ => none
    createResource := fun _ _ _ _ => none }

/-- A second data-mode target whose store access fails. -/
def cmGen2 : Generation :=
  { kind := "ConfigMap", ns := "ns1", name := "cm2"
    gdata := some (.str "tpl2"), clone := emptyCloneFrom }

/-- A policy with a succeeding first rule and a failing second rule. -/
def twoRulePolicy : GenPolicy :=
  { name := "gp", creationTimestamp := 0
    rules := [cmRule, { name := "gen-cm2", generation := some cmGen2 }] }

/-- The controller environment around the partial store. -/
def ctrlEnvHalfDone : CtrlEnv :=
  { genEnv := flakyStoreEnv
    getTriggerResource := fun _ => .ok (plainResource "Namespace")
    getPolicy := fun _ => some twoRulePolicy
    buildContext := fun r _ => .ok ⟨r, "someone"⟩
    generateNewRuleCount := fun _ _ => 2 }

/-- A fresh GenerateRequest for that policy. -/
def grNew : GenerateRequest := ⟨"gp", ⟨"Namespace", "", "ns-trigger"⟩, .new⟩

/-- C7 counterexample: the first rule succeeds and issues its create call
(createCalls = 1), the second rule fails — yet the terminal Failed
status carries a nil resource list, not the partial list with the
first rule's ResourceSpec. -/
theorem failed_status_discards_partial_ce :
    processGR ctrlEnvHalfDone grNew
      = { statusWrite := some (.failedWrite "store down" none)
          pvAdded := false, returnedErr := none, createCalls := 1 } := by
  rfl

/-- C7 amended: a trigger that cannot be located yields no status write
and the error is returned for re-queueing; an erroring pass writes a
terminal Failed carrying the error message and a nil resource list
(partials discarded); an error-free pass writes Completed with the
full list. -/
theorem generate_status_handling
    (cenv : CtrlEnv) (gr : GenerateRequest) (resource : Resource) (emsg : String)
    (cenv2 : CtrlEnv) (gr2 : GenerateRequest)
    (htrigFail : cenv2.getTriggerResource gr2.resourceRef = .error emsg)
    (htrig : cenv.getTriggerResource gr.resourceRef = .ok resource) :
    processGR cenv2 gr2
        = { statusWrite := none, pvAdded := false, returnedErr := some emsg
            createCalls := 0 }
    ∧ (∀ e, (applyGenerate cenv resource gr).2.1 = some e →
        (applyGenerate cenv resource gr).1 = none
        ∧ (processGR cenv gr).statusWrite = some (.failedWrite e.message none))
    ∧ ((applyGenerate cenv resource gr).2.1 = none →
        (processGR cenv gr).statusWrite
          = some (.completedWrite (applyGenerate cenv resource gr).1)) := by
  refine ⟨?_, ?_, ?_⟩
  · simp [processGR, htrigFail]
  · intro e he
    have hnil := applyGenerate_err_nil cenv resource gr e he
    refine ⟨hnil, ?_⟩
    simp [processGR, htrig, updateStatus, he, hnil]
  · intro he
    simp [processGR, htrig, updateStatus, he]

/-- A controller environment whose trigger lookup always fails. -/
def ctrlEnvNoTrigger : CtrlEnv :=
  { genEnv := flakyStoreEnv
    getTriggerResource := fun _ => .error "trigger not yet visible"
    getPolicy := fun _ => some twoRulePolicy
    buildContext := fun r _ => .ok ⟨r, "someone"⟩
    generateNewRuleCount := fun _ _ => 2 }

/-- C7 amended witness: the partial store scenario (second rule fails)
and the missing-trigger scenario. -/
theorem generate_status_handling_witness :
    processGR ctrlEnvNoTrigger grNew
        = { statusWrite := none, pvAdded := false
            returnedErr := some "trigger not yet visible", createCalls := 0 }
    ∧ ((applyGenerate ctrlEnvHalfDone (plainResource "Namespace") grNew).1 = none
        ∧ (processGR ctrlEnvHalfDone grNew).statusWrite
            = some (.failedWrite (GenError.other "store down").message none)) :=
  ⟨(generate_status_handling ctrlEnvHalfDone grNew (plainResource "Namespace")
      "trigger not yet visible" ctrlEnvNoTrigger grNew rfl rfl).1,
   (generate_status_handling ctrlEnvHalfDone grNew (plainResource "Namespace")
      "trigger not yet visible" ctrlEnvNoTrigger grNew rfl rfl).2.1
      (.other "store down") rfl⟩

/-- The controller environment around the always-missing-target store,
with a single-rule policy. -/
def ctrlEnvReplay : CtrlEnv :=
  { genEnv := replayStoreEnv
    getTriggerResource := fun _ => .ok (plainResource "Namespace")
    getPolicy := fun _ => some (cmPolicy 0)
    buildContext := fun r _ => .ok ⟨r, "someone"⟩
    generateNewRuleCount := fun _ _ => 1 }

/-- A redelivered request whose state is already Completed. -/
def grCompleted : GenerateRequest := ⟨"gp", ⟨"Namespace", "", "ns-trigger"⟩, .completed⟩

/-- C8 counterexample: a replay of a request already in state Completed
with the target missing ends in a Failed write — the transition
Completed→Failed occurs, so New→Completed and New→Failed are not the
only transitions and the state does regress from Completed. -/
theorem state_transition_regress_ce :
    grCompleted.state = .completed
    ∧ stateAfter grCompleted (processGR ctrlEnvReplay grCompleted) = .failed := by
  exact ⟨rfl, rfl⟩

/-- A store in which the target exists and matches its template. -/
def satisfiedStoreEnv : GenEnv :=
  { getResource := fun _ _ _ => .found (.str "existing")
    substituteVariables := fun _ v => v
    substituteString := fun _ s => .str s
    toUnstructured := fun v => .ok v
    validateResourceWithPattern := fun _ _ _ => none
    createResource := fun _ _ _ _ => none }

/-- The controller environment around the satisfied store. -/
def ctrlEnvSatisfied : CtrlEnv :=
  { genEnv := satisfiedStoreEnv
    getTriggerResource := fun _ => .ok (plainResource "Namespace")
    getPolicy := fun _ => some (cmPolicy 0)
    buildContext := fun r _ => .ok ⟨r, "someone"⟩
    generateNewRuleCount := fun _ _ => 1 }

/-- A redelivered request whose state is already Failed. -/
def grFailed : GenerateRequest := ⟨"gp", ⟨"Namespace", "", "ns-trigger"⟩, .failed⟩

/-- C8 amended: the terminal write depends only on the pass outcome, never
on the prior state — an erroring pass ends in Failed and a clean pass
in Completed from any prior state, so Completed→Failed (replay with
missing target) and Failed→Completed (successful retry) both occur;
a redelivered terminal-state request is a replay in data mode: it
issues no create call. -/
theorem state_transitions_outcome_only
    (cenv : CtrlEnv) (gr : GenerateRequest) (resource : Resource)
    (htrig : cenv.getTriggerResource gr.resourceRef = .ok resource) :
    (∀ e, (applyGenerate cenv resource gr).2.1 = some e →
        stateAfter gr (processGR cenv gr) = .failed)
    ∧ ((applyGenerate cenv resource gr).2.1 = none →
        stateAfter gr (processGR cenv gr) = .completed)
    ∧ (stateAfter grCompleted (processGR ctrlEnvReplay grCompleted) = .failed
        ∧ (processGR ctrlEnvReplay grCompleted).createCalls = 0)
    ∧ (grFailed.state = .failed
        ∧ stateAfter grFailed (processGR ctrlEnvSatisfied grFailed) = .completed
        ∧ (processGR ctrlEnvSatisfied grFailed).createCalls = 0) := by
  refine ⟨?_, ?_, ⟨rfl, rfl⟩, ⟨rfl, rfl, rfl⟩⟩
  · intro e he
    simp [stateAfter, processGR, htrig, updateStatus, he]
  · intro he
    simp [stateAfter, processGR, htrig, updateStatus, he]

/-- C8 amended witness: the replay environment, where the erroring pass
over the Completed request is seen to end in Failed. -/
theorem state_transitions_outcome_only_witness :
    stateAfter grCompleted (processGR ctrlEnvReplay grCompleted) = .failed
    ∧ (processGR ctrlEnvReplay grCompleted).createCalls = 0
    ∧ stateAfter grFailed (processGR ctrlEnvSatisfied grFailed) = .completed :=
  ⟨(state_transitions_outcome_only ctrlEnvReplay grCompleted (plainResource "Namespace")
      rfl).1 (.violation "gen-cm" (.notFound "ConfigMap" "ns1" "cm1")) rfl,
   (state_transitions_outcome_only ctrlEnvReplay grCompleted (plainResource "Namespace")
      rfl).2.2.1.2,
   (state_transitions_outcome_only ctrlEnvSatisfied grFailed (plainResource "Namespace")
      rfl).2.2.2.2.1⟩

end Kyverno
